import Mathlib

/-!
Verification of the book CRUD service in app/main.py.

The handlers of app/main.py are shallowly embedded: the database table is a
list of book records, an SQLAlchemy session is summarised by the events it
emits (a session is opened, a session is closed), JSON bodies are an inductive
JSON value type, and the Python runtime failures that the handlers can raise
(attribute access on None, deleting None) become an explicit error type.
Each handler returns the trace of session events it produced together with
either a resulting state and response or the error it raised; the global
exception handler of app/main.py turns an error into the fixed 500 response.
-/

set_option autoImplicit false

namespace BooksApi

/-- A book record. Modelled from the spec: the column declarations live in
app/models.py which is not part of the sources at hand; spec section 3 gives
the attributes: identifier (unique, server-assigned, monotonic), title (text),
pages (integer), created_at (date, set at creation, immutable thereafter).
Dates are modelled as natural numbers. -/
structure Book where
  id : Int
  title : String
  pages : Int
  created_at : Nat
deriving Repr, DecidableEq

/-- Database state: the books table in row order, plus the next identifier the
database will assign. Modelled from the spec: the identifier column is
server-assigned and monotonic, so the state carries the next value. -/
structure St where
  books : List Book
  nextId : Int
deriving Repr, DecidableEq

/-- JSON values, for the response bodies built by the handlers. -/
inductive Json where
  | null
  | int (n : Int)
  | str (s : String)
  | arr (elts : List Json)
  | obj (fields : List (String × Json))
deriving Repr

/-- A response as built by fastapi.responses.JSONResponse: an HTTP status code
and a JSON body. -/
structure JSONResponse where
  status_code : Int
  content : Json
deriving Repr

/-- The Python runtime failures the handlers can raise: attribute assignment
on None (update_book line 112 or 114 when the fetch returned None) and
session.delete on None (delete_book line 127). -/
inductive Err where
  | attributeError
  | unmappedInstanceError
deriving Repr, DecidableEq

/-- Session lifecycle events, recording where Session() is called and where
session.close() is reached. -/
inductive Ev where
  | openSession
  | closeSession
deriving Repr, DecidableEq

/-- jsonable_encoder on one Book row: an object of its four columns. -/
def encodeBook (b : Book) : Json :=
  Json.obj [("id", Json.int b.id), ("title", Json.str b.title),
            ("pages", Json.int b.pages), ("created_at", Json.int b.created_at)]

/-- jsonable_encoder on an optional Book: None encodes to JSON null. -/
def encodeOptBook : Option Book → Json
  | none => Json.null
  | some b => encodeBook b

/-- The success body built at main.py lines 76-78, 118-120 and 131-133. -/
def successBody : Json :=
  Json.obj [("status_code", Json.int 200), ("message", Json.str "success")]

/-- The success response of create_book, update_book and delete_book. -/
def successResponse : JSONResponse :=
  { status_code := 200, content := successBody }

/-- The response of find_book (main.py line 89): a 200 envelope whose result
object carries the encoded row, or null when the fetch found nothing. -/
def bookResultResponse (ob : Option Book) : JSONResponse :=
  { status_code := 200,
    content := Json.obj [("status_code", Json.int 200),
      ("result", Json.obj [("book", encodeOptBook ob)])] }

/-- The response of get_books (main.py line 104): a 200 envelope whose result
object carries the encoded rows of the returned slice. -/
def booksResultResponse (rows : List Book) : JSONResponse :=
  { status_code := 200,
    content := Json.obj [("status_code", Json.int 200),
      ("result", Json.obj [("books", Json.arr (rows.map encodeBook))])] }

/-- session.query(Book).filter(Book.id == id).first(), and also
session.query(Book).get(id): the first row whose id column matches. -/
def queryFirst (books : List Book) (id : Int) : Option Book :=
  books.find? (fun b => b.id == id)

/-- Mutating the single fetched instance and committing: the first row whose
id matches is replaced by f of it; the rest of the table is untouched. -/
def updateFirst (books : List Book) (id : Int) (f : Book → Book) : List Book :=
  match books with
  | [] => []
  | b :: rest => if b.id == id then f b :: rest else b :: updateFirst rest id f

/-- The field mutations of update_book lines 111-114: each supplied optional
field overwrites the fetched record's field; an absent field leaves it. -/
def applyUpdate (title : Option String) (pages : Option Int) (b : Book) : Book :=
  { b with title := title.getD b.title, pages := pages.getD b.pages }

/-- POST /books (main.py lines 67-78): open a session, add a new row with a
fresh identifier and created_at = today, commit, close, return success. -/
def create_book (st : St) (title : String) (pages : Int) (today : Nat) :
    List Ev × Except Err (St × JSONResponse) :=
  ([Ev.openSession, Ev.closeSession],
   Except.ok
     ({ books := st.books ++ [{ id := st.nextId, title := title,
                                pages := pages, created_at := today }],
        nextId := st.nextId + 1 },
      successResponse))

/-- GET /books/id (main.py lines 81-89): open a session, fetch the first row
matching the id, close, return a 200 envelope whose result carries the row or
null. -/
def find_book (st : St) (id : Int) : List Ev × Except Err (St × JSONResponse) :=
  ([Ev.openSession, Ev.closeSession],
   Except.ok (st, bookResultResponse (queryFirst st.books id)))

/-- The page_size clamp of main.py lines 95-96: any value above 100 or below 0
is replaced by 100. -/
def clampPageSize (page_size : Int) : Int :=
  if page_size > 100 || page_size < 0 then 100 else page_size

/-- The slice returned by the query of main.py line 99: limit page_size (after
the clamp), offset (page - 1) * page_size. -/
def pageSlice (books : List Book) (page_size : Int) (page : Int) : List Book :=
  (books.drop ((page - 1) * clampPageSize page_size).toNat).take
    (clampPageSize page_size).toNat

/-- GET /books (main.py lines 92-104): clamp page_size, open a session, take a
limit/offset slice of the table, close, return a 200 envelope with the encoded
rows. -/
def get_books (st : St) (page_size : Int) (page : Int) :
    List Ev × Except Err (St × JSONResponse) :=
  ([Ev.openSession, Ev.closeSession],
   Except.ok (st, booksResultResponse (pageSlice st.books page_size page)))

/-- PUT /books (main.py lines 107-120): open a session, fetch by id; when a
row was found, overwrite the supplied fields, commit, close, return success;
when the fetch returned None and a field is supplied, the attribute
assignment on None raises before close is reached; when the fetch returned
None and no field is supplied, both assignments are skipped, the empty commit
succeeds and success is returned. -/
def update_book (st : St) (id : Int) (title : Option String) (pages : Option Int) :
    List Ev × Except Err (St × JSONResponse) :=
  match queryFirst st.books id with
  | some _ =>
      ([Ev.openSession, Ev.closeSession],
       Except.ok
         ({ st with books := updateFirst st.books id (applyUpdate title pages) },
          successResponse))
  | none =>
      if title.isSome || pages.isSome then
        ([Ev.openSession], Except.error Err.attributeError)
      else
        ([Ev.openSession, Ev.closeSession], Except.ok (st, successResponse))

/-- DELETE /books (main.py lines 123-133): open a session, fetch by id; when a
row was found, delete it, commit, close, return success; when the fetch
returned None, session.delete(None) raises before close is reached. -/
def delete_book (st : St) (id : Int) : List Ev × Except Err (St × JSONResponse) :=
  match queryFirst st.books id with
  | some _ =>
      ([Ev.openSession, Ev.closeSession],
       Except.ok
         ({ st with books := st.books.eraseP (fun b => b.id == id) },
          successResponse))
  | none => ([Ev.openSession], Except.error Err.unmappedInstanceError)

/-- The fixed error response of get_default_error_response (main.py lines
142-147), always called with its default arguments 500 and the fixed text. -/
def get_default_error_response : JSONResponse :=
  { status_code := 500,
    content := Json.obj [("status_code", Json.int 500),
                         ("message", Json.str "Internal Server Error")] }

/-- The global exception handler (main.py lines 136-139): any uncaught
failure produces the default error response. -/
def exception_handler (_exc : Err) : JSONResponse :=
  get_default_error_response

/-- One request to the book handler set. -/
inductive Request where
  | create (title : String) (pages : Int)
  | find (id : Int)
  | listBooks (page_size : Int) (page : Int)
  | update (id : Int) (title : Option String) (pages : Option Int)
  | delete (id : Int)

/-- Routing: dispatch a request to its handler. -/
def routeRequest (st : St) (today : Nat) : Request → List Ev × Except Err (St × JSONResponse)
  | Request.create t p => create_book st t p today
  | Request.find id => find_book st id
  | Request.listBooks ps pg => get_books st ps pg
  | Request.update id t p => update_book st id t p
  | Request.delete id => delete_book st id

/-- The application as seen by a client: dispatch, then the global exception
handler on an uncaught failure. A raising handler never committed, so the
state is unchanged on the error path. -/
def handleRequest (st : St) (today : Nat) (req : Request) : St × JSONResponse :=
  match (routeRequest st today req).2 with
  | Except.ok r => r
  | Except.error e => (st, exception_handler e)

/-- A JSON body is a uniform envelope when it is an object of exactly a
status_code field and either a message field or a result field. -/
def isEnvelope (j : Json) : Prop :=
  (∃ c m, j = Json.obj [("status_code", Json.int c), ("message", Json.str m)]) ∨
  (∃ c r, j = Json.obj [("status_code", Json.int c), ("result", r)])

/-! ## Helper lemmas -/

/-- find? over an appended list when the left part has no match. -/
theorem find?_append_of_forall_false {p : Book → Bool} (l l₂ : List Book)
    (h : ∀ b ∈ l, p b = false) : (l ++ l₂).find? p = l₂.find? p := by
  induction l with
  | nil => rfl
  | cons x xs ih =>
      have hx : p x = false := h x (List.mem_cons_self x xs)
      rw [List.cons_append, List.find?_cons_of_neg _ (by simp [hx])]
      exact ih (fun b hb => h b (List.mem_cons_of_mem x hb))

/-- After erasing the first match from a table with pairwise distinct ids,
no match is left. -/
theorem find?_eraseP_of_pairwise (l : List Book) (id : Int)
    (hu : l.Pairwise (fun a c => a.id ≠ c.id)) :
    (l.eraseP (fun b => b.id == id)).find? (fun b => b.id == id) = none := by
  induction l with
  | nil => rfl
  | cons x xs ih =>
      rcases List.pairwise_cons.mp hu with ⟨hx, hxs⟩
      by_cases hxi : x.id = id
      · have h1 : (x :: xs).eraseP (fun b => b.id == id) = xs := by
          simp [List.eraseP_cons_of_pos, hxi]
        rw [h1, List.find?_eq_none]
        intro c hc
        have hne : x.id ≠ c.id := hx c hc
        simp only [beq_iff_eq]
        intro hcid
        exact hne (hxi.trans hcid.symm)
      · have h1 : (x :: xs).eraseP (fun b => b.id == id)
            = x :: xs.eraseP (fun b => b.id == id) := by
          simp [List.eraseP_cons_of_neg, hxi]
        have h2 : (x :: xs.eraseP (fun b => b.id == id)).find? (fun b => b.id == id)
            = (xs.eraseP (fun b => b.id == id)).find? (fun b => b.id == id) := by
          simp [List.find?_cons_of_neg, hxi]
        rw [h1, h2]
        exact ih hxs

/-- Characterisation of updateFirst when the fetch succeeds: there is an index
j holding the fetched row, whose id matches; the row at j is replaced by f of
it and every other row is unchanged. -/
theorem updateFirst_char (l : List Book) (id : Int) (f : Book → Book) (b : Book)
    (hb : l.find? (fun x => x.id == id) = some b) :
    ∃ j, ∃ hj : j < l.length,
      l.get ⟨j, hj⟩ = b ∧ b.id = id ∧
      (updateFirst l id f).length = l.length ∧
      ∀ i, ∀ hi : i < l.length, ∀ hi₂ : i < (updateFirst l id f).length,
        (updateFirst l id f).get ⟨i, hi₂⟩ = if i = j then f b else l.get ⟨i, hi⟩ := by
  induction l with
  | nil => simp at hb
  | cons x xs ih =>
      by_cases hxi : x.id = id
      · have hbx : x = b := by
          have h1 : (x :: xs).find? (fun v => v.id == id) = some x := by
            simp [List.find?_cons_of_pos, hxi]
          rw [h1] at hb
          exact Option.some_inj.mp hb
        subst hbx
        refine ⟨0, Nat.succ_pos _, rfl, hxi, by simp [updateFirst, hxi], ?_⟩
        intro i hi hi₂
        cases i with
        | zero => simp [updateFirst, hxi]
        | succ n => simp [updateFirst, hxi]
      · have hb' : xs.find? (fun v => v.id == id) = some b := by
          have h1 : (x :: xs).find? (fun v => v.id == id)
              = xs.find? (fun v => v.id == id) := by
            simp [List.find?_cons_of_neg, hxi]
          rw [h1] at hb
          exact hb
        rcases ih hb' with ⟨j, hj, hget, hid, hlen, hrest⟩
        refine ⟨j + 1, Nat.succ_lt_succ hj, by simpa using hget, hid,
          by simp [updateFirst, hxi, hlen], ?_⟩
        intro i hi hi₂
        cases i with
        | zero => simp [updateFirst, hxi]
        | succ n =>
            have hn : n < xs.length := Nat.lt_of_succ_lt_succ hi
            have hn₂ : n < (updateFirst xs id f).length := hlen ▸ hn
            have hr := hrest n hn hn₂
            have h1 : updateFirst (x :: xs) id f = x :: updateFirst xs id f := by
              simp [updateFirst, hxi]
            have h2 : (updateFirst (x :: xs) id f).get ⟨n + 1, hi₂⟩
                = (updateFirst xs id f).get ⟨n, hn₂⟩ := by
              simp [h1]
            rw [h2, hr]
            by_cases hnj : n = j
            · subst hnj; simp
            · rw [if_neg hnj, if_neg (by omega)]
              simp

/-! ## Claims -/

/-- Claim C3: for every id with no matching record, GET /books/id returns
status 200 with a success envelope whose result carries book = null; the
state is unchanged. -/
theorem C3_get_missing_returns_null (st : St) (today : Nat) (id : Int)
    (h : queryFirst st.books id = none) :
    handleRequest st today (Request.find id) = (st, bookResultResponse none) ∧
    encodeOptBook none = Json.null := by
  constructor
  · simp [handleRequest, routeRequest, find_book, h]
  · rfl

/-- Witness for C3 at the empty table and id 1. -/
theorem C3_witness :
    queryFirst (St.mk [] 1).books 1 = none ∧
    (handleRequest (St.mk [] 1) 0 (Request.find 1) = (St.mk [] 1, bookResultResponse none) ∧
     encodeOptBook none = Json.null) :=
  ⟨rfl, C3_get_missing_returns_null (St.mk [] 1) 0 1 rfl⟩

/-- Claim C7: for every non-existent id, DELETE /books raises the
unhandled-null failure (session.delete on the None fetch result), which the
exception handler collapses to the generic 500 envelope, and the database
state is unchanged. -/
theorem C7_delete_missing_is_500 (st : St) (today : Nat) (id : Int)
    (h : queryFirst st.books id = none) :
    (routeRequest st today (Request.delete id)).2 =
      Except.error Err.unmappedInstanceError ∧
    handleRequest st today (Request.delete id) = (st, get_default_error_response) := by
  constructor
  · simp [routeRequest, delete_book, h]
  · simp [handleRequest, routeRequest, delete_book, h, exception_handler]

/-- Witness for C7 at the empty table and id 1. -/
theorem C7_witness :
    queryFirst (St.mk [] 1).books 1 = none ∧
    ((routeRequest (St.mk [] 1) 0 (Request.delete 1)).2 =
      Except.error Err.unmappedInstanceError ∧
     handleRequest (St.mk [] 1) 0 (Request.delete 1) =
       (St.mk [] 1, get_default_error_response)) :=
  ⟨rfl, C7_delete_missing_is_500 (St.mk [] 1) 0 1 rfl⟩

/-- Claim C10: for every database state and page value, GET /books with
page_size = 0 returns a success envelope whose books list is empty: 0 is
inside the clamp range, so the slice limit is zero. -/
theorem C10_page_size_zero_empty (st : St) (today : Nat) (page : Int) :
    handleRequest st today (Request.listBooks 0 page) =
      (st, booksResultResponse []) := by
  have hslice : pageSlice st.books 0 page = [] := by
    simp [pageSlice, clampPageSize]
  simp [handleRequest, routeRequest, get_books, hslice]

/-- The clamp never yields a negative limit. -/
theorem clampPageSize_nonneg (page_size : Int) : 0 ≤ clampPageSize page_size := by
  unfold clampPageSize
  split
  · omega
  · next hc =>
      simp only [Bool.or_eq_true, decide_eq_true_eq] at hc
      omega

/-- The clamp never yields a limit above 100. -/
theorem clampPageSize_le_100 (page_size : Int) : clampPageSize page_size ≤ 100 := by
  unfold clampPageSize
  split
  · omega
  · next hc =>
      simp only [Bool.or_eq_true, decide_eq_true_eq] at hc
      omega

/-- Claim C1, counterexample: PUT /books on a non-existent id with neither
optional field supplied skips both mutations, commits and returns the 200
success envelope, not the 500 failure envelope. -/
theorem C1_counterexample :
    queryFirst (St.mk [] 1).books 1 = none ∧
    handleRequest (St.mk [] 1) 0 (Request.update 1 none none) =
      (St.mk [] 1, successResponse) ∧
    successResponse.status_code = 200 ∧
    successResponse ≠ get_default_error_response :=
  ⟨rfl, rfl, rfl,
   fun h => absurd (congrArg JSONResponse.status_code h) (by decide)⟩

/-- Claim C1, amended: for every non-existent id, PUT /books returns the 500
failure envelope when at least one of title and pages is supplied (the
attribute assignment on the None fetch result raises); with neither supplied,
no mutation is attempted and a success envelope is returned. In both cases
the database state is unchanged. -/
theorem C1_update_missing_is_500 (st : St) (today : Nat) (id : Int)
    (title : Option String) (pages : Option Int)
    (h : queryFirst st.books id = none)
    (hs : title.isSome ∨ pages.isSome) :
    (routeRequest st today (Request.update id title pages)).2 =
      Except.error Err.attributeError ∧
    handleRequest st today (Request.update id title pages) =
      (st, get_default_error_response) := by
  have hb : (title.isSome || pages.isSome) = true := by
    rcases hs with h1 | h1 <;> simp [h1]
  constructor
  · simp [routeRequest, update_book, h, hb]
  · simp [handleRequest, routeRequest, update_book, h, hb, exception_handler]

/-- Witness for the amended C1 at the empty table, id 1 and a supplied title. -/
theorem C1_witness :
    queryFirst (St.mk [] 1).books 1 = none ∧
    ((Option.some "x").isSome ∨ (Option.none : Option Int).isSome) ∧
    ((routeRequest (St.mk [] 1) 0 (Request.update 1 (some "x") none)).2 =
      Except.error Err.attributeError ∧
     handleRequest (St.mk [] 1) 0 (Request.update 1 (some "x") none) =
       (St.mk [] 1, get_default_error_response)) :=
  ⟨rfl, Or.inl rfl,
   C1_update_missing_is_500 (St.mk [] 1) 0 1 (some "x") none rfl (Or.inl rfl)⟩

/-- Claim C2: GET /books keeps page_size unchanged when it lies in 0..100 and
replaces it by 100 when it is above 100 or negative; the returned slice is
the limit/offset slice with offset (page - 1) * clamped page_size, and it
never holds more than 100 records. -/
theorem C2_list_clamp_and_slice (st : St) (today : Nat) (page_size page : Int)
    (hp : 1 ≤ page) :
    (0 ≤ page_size → page_size ≤ 100 → clampPageSize page_size = page_size) ∧
    (page_size > 100 ∨ page_size < 0 → clampPageSize page_size = 100) ∧
    (∃ off : Nat, (off : Int) = (page - 1) * clampPageSize page_size ∧
      handleRequest st today (Request.listBooks page_size page) =
        (st, booksResultResponse
          ((st.books.drop off).take (clampPageSize page_size).toNat))) ∧
    (pageSlice st.books page_size page).length ≤ 100 := by
  refine ⟨?_, ?_, ?_, ?_⟩
  · intro h1 h2
    unfold clampPageSize
    split
    · next hc =>
        simp only [Bool.or_eq_true, decide_eq_true_eq] at hc
        omega
    · rfl
  · intro h1
    unfold clampPageSize
    split
    · rfl
    · next hc =>
        simp only [Bool.or_eq_true, decide_eq_true_eq] at hc
        omega
  · refine ⟨((page - 1) * clampPageSize page_size).toNat, ?_, ?_⟩
    · exact Int.toNat_of_nonneg
        (mul_nonneg (by omega) (clampPageSize_nonneg page_size))
    · simp [handleRequest, routeRequest, get_books, pageSlice]
  · have h1 : (clampPageSize page_size).toNat ≤ 100 :=
      Int.toNat_le.mpr (clampPageSize_le_100 page_size)
    calc (pageSlice st.books page_size page).length
        ≤ (clampPageSize page_size).toNat := by
          simp [pageSlice]
      _ ≤ 100 := h1

/-- Witness for C2 at the empty table, page_size -5 and page 1. -/
theorem C2_witness :
    (1 : Int) ≤ 1 ∧
    ((0 ≤ (-5 : Int) → (-5 : Int) ≤ 100 → clampPageSize (-5) = -5) ∧
     ((-5 : Int) > 100 ∨ (-5 : Int) < 0 → clampPageSize (-5) = 100) ∧
     (∃ off : Nat, (off : Int) = ((1 : Int) - 1) * clampPageSize (-5) ∧
       handleRequest (St.mk [] 1) 0 (Request.listBooks (-5) 1) =
         (St.mk [] 1, booksResultResponse
           (((St.mk [] 1).books.drop off).take (clampPageSize (-5)).toNat))) ∧
     (pageSlice (St.mk [] 1).books (-5) 1).length ≤ 100) :=
  ⟨le_refl 1, C2_list_clamp_and_slice (St.mk [] 1) 0 (-5) 1 (le_refl 1)⟩

/-- Every client-visible response is one of the four response builders. -/
theorem handleRequest_cases (st : St) (today : Nat) (req : Request) :
    (handleRequest st today req).2 = successResponse ∨
    (∃ ob, (handleRequest st today req).2 = bookResultResponse ob) ∨
    (∃ rows, (handleRequest st today req).2 = booksResultResponse rows) ∨
    (handleRequest st today req).2 = get_default_error_response := by
  cases req with
  | create t p => exact Or.inl rfl
  | find id => exact Or.inr (Or.inl ⟨_, rfl⟩)
  | listBooks ps pg => exact Or.inr (Or.inr (Or.inl ⟨_, rfl⟩))
  | update id t p =>
      simp only [handleRequest, routeRequest, update_book]
      cases h : queryFirst st.books id with
      | some b => exact Or.inl rfl
      | none =>
          cases ht : (t.isSome || p.isSome) with
          | true => exact Or.inr (Or.inr (Or.inr rfl))
          | false => exact Or.inl rfl
  | delete id =>
      simp only [handleRequest, routeRequest, delete_book]
      cases h : queryFirst st.books id with
      | some b => exact Or.inl rfl
      | none => exact Or.inr (Or.inr (Or.inr rfl))

/-- Claim C8: every response of every book operation is a uniform envelope
(an object of a status_code field and either a message or a result field),
and every uncaught handler failure yields HTTP 500 with the fixed body
carrying status_code 500 and the text Internal Server Error. -/
theorem C8_uniform_envelope (st : St) (today : Nat) (req : Request) :
    isEnvelope (handleRequest st today req).2.content ∧
    (∀ e, (routeRequest st today req).2 = Except.error e →
      handleRequest st today req = (st, get_default_error_response)) ∧
    get_default_error_response.status_code = 500 ∧
    get_default_error_response.content =
      Json.obj [("status_code", Json.int 500),
                ("message", Json.str "Internal Server Error")] := by
  refine ⟨?_, ?_, rfl, rfl⟩
  · rcases handleRequest_cases st today req with h | ⟨ob, h⟩ | ⟨rows, h⟩ | h <;> rw [h]
    · exact Or.inl ⟨200, "success", rfl⟩
    · exact Or.inr ⟨200, _, rfl⟩
    · exact Or.inr ⟨200, _, rfl⟩
    · exact Or.inl ⟨500, "Internal Server Error", rfl⟩
  · intro e he
    unfold handleRequest
    rw [he]
    rfl

/-- Witness for C8: the error path at the empty table and a delete of id 1. -/
theorem C8_witness :
    handleRequest (St.mk [] 1) 0 (Request.delete 1) =
      (St.mk [] 1, get_default_error_response) :=
  (C8_uniform_envelope (St.mk [] 1) 0 (Request.delete 1)).2.1
    Err.unmappedInstanceError rfl

/-- Claim C9, counterexample: DELETE /books on the empty table with id 1
raises after Session() was called and before session.close() is reached, so
the session is opened but never closed on this failure path. -/
theorem C9_counterexample :
    (routeRequest (St.mk [] 1) 0 (Request.delete 1)).1 = [Ev.openSession] ∧
    Ev.closeSession ∉ (routeRequest (St.mk [] 1) 0 (Request.delete 1)).1 := by
  constructor
  · rfl
  · decide

/-- Claim C9, amended: every handler opens a session at the start of the
request; on every path that returns normally the session is closed before
returning; but on the exception paths (update or delete of a missing id) the
handler raises before session.close() is reached, so the session is not
released there. -/
theorem C9_session_lifecycle (st : St) (today : Nat) (req : Request) :
    (routeRequest st today req).1.head? = some Ev.openSession ∧
    (∀ r, (routeRequest st today req).2 = Except.ok r →
      (routeRequest st today req).1 = [Ev.openSession, Ev.closeSession]) ∧
    (∀ e, (routeRequest st today req).2 = Except.error e →
      (routeRequest st today req).1 = [Ev.openSession] ∧
      Ev.closeSession ∉ (routeRequest st today req).1) := by
  cases req with
  | create t p =>
      exact ⟨rfl, fun r hr => rfl, fun e he => Except.noConfusion he⟩
  | find id =>
      exact ⟨rfl, fun r hr => rfl, fun e he => Except.noConfusion he⟩
  | listBooks ps pg =>
      exact ⟨rfl, fun r hr => rfl, fun e he => Except.noConfusion he⟩
  | update id t p =>
      simp only [routeRequest, update_book]
      cases h : queryFirst st.books id with
      | some b => exact ⟨rfl, fun r hr => rfl, fun e he => Except.noConfusion he⟩
      | none =>
          cases ht : (t.isSome || p.isSome) with
          | true =>
              exact ⟨rfl, fun r hr => Except.noConfusion hr,
                     fun e he =>
                       ⟨rfl, (by decide : Ev.closeSession ∉ [Ev.openSession])⟩⟩
          | false =>
              exact ⟨rfl, fun r hr => rfl, fun e he => Except.noConfusion he⟩
  | delete id =>
      simp only [routeRequest, delete_book]
      cases h : queryFirst st.books id with
      | some b => exact ⟨rfl, fun r hr => rfl, fun e he => Except.noConfusion he⟩
      | none =>
          exact ⟨rfl, fun r hr => Except.noConfusion hr,
                 fun e he =>
                   ⟨rfl, (by decide : Ev.closeSession ∉ [Ev.openSession])⟩⟩

/-- Witness for the amended C9: a normal path (find on id 2) opens and then
closes the session. -/
theorem C9_witness :
    (routeRequest (St.mk [] 1) 0 (Request.find 2)).1.head? = some Ev.openSession ∧
    (routeRequest (St.mk [] 1) 0 (Request.find 2)).1 =
      [Ev.openSession, Ev.closeSession] :=
  ⟨(C9_session_lifecycle (St.mk [] 1) 0 (Request.find 2)).1,
   (C9_session_lifecycle (St.mk [] 1) 0 (Request.find 2)).2.1 _ rfl⟩

/-- A sample row used by the concrete instantiations below. -/
def sampleBook : Book :=
  { id := 1, title := "a", pages := 5, created_at := 0 }

/-- Claim C4: PUT /books on an existing record changes only the supplied
optional fields of the fetched row: its identifier and created_at are kept,
an unsupplied field is kept, a supplied field takes the supplied value, and
every other row of the table is unchanged. -/
theorem C4_update_frame (st : St) (today : Nat) (id : Int)
    (title : Option String) (pages : Option Int) (b : Book)
    (hb : queryFirst st.books id = some b) :
    ∃ st₂ : St,
      handleRequest st today (Request.update id title pages) = (st₂, successResponse) ∧
      st₂.nextId = st.nextId ∧
      st₂.books.length = st.books.length ∧
      ∃ j, ∃ hj : j < st.books.length, ∃ hj₂ : j < st₂.books.length,
        st.books.get ⟨j, hj⟩ = b ∧ b.id = id ∧
        st₂.books.get ⟨j, hj₂⟩ = applyUpdate title pages b ∧
        (applyUpdate title pages b).id = b.id ∧
        (applyUpdate title pages b).created_at = b.created_at ∧
        (title = none → (applyUpdate title pages b).title = b.title) ∧
        (pages = none → (applyUpdate title pages b).pages = b.pages) ∧
        (∀ t, title = some t → (applyUpdate title pages b).title = t) ∧
        (∀ p, pages = some p → (applyUpdate title pages b).pages = p) ∧
        ∀ i, ∀ hi : i < st.books.length, ∀ hi₂ : i < st₂.books.length,
          i ≠ j → st₂.books.get ⟨i, hi₂⟩ = st.books.get ⟨i, hi⟩ := by
  rcases updateFirst_char st.books id (applyUpdate title pages) b hb with
    ⟨j, hj, hget, hid, hlen, hrest⟩
  refine ⟨{ st with books := updateFirst st.books id (applyUpdate title pages) }, ?_,
    rfl, hlen, j, hj, by rw [hlen]; exact hj, hget, hid, ?_, rfl, rfl,
    fun h => by subst h; rfl, fun h => by subst h; rfl,
    fun t h => by subst h; rfl, fun p h => by subst h; rfl, ?_⟩
  · simp [handleRequest, routeRequest, update_book, hb]
  · have := hrest j hj (by rw [hlen]; exact hj)
    simpa using this
  · intro i hi hi₂ hne
    have := hrest i hi hi₂
    rwa [if_neg hne] at this

/-- Witness for C4 at a one-row table, id 1, a supplied title and no pages. -/
theorem C4_witness :
    queryFirst (St.mk [sampleBook] 2).books 1 = some sampleBook ∧
    (∃ st₂ : St,
      handleRequest (St.mk [sampleBook] 2) 0 (Request.update 1 (some "x") none) =
        (st₂, successResponse) ∧
      st₂.nextId = (St.mk [sampleBook] 2).nextId ∧
      st₂.books.length = (St.mk [sampleBook] 2).books.length ∧
      ∃ j, ∃ hj : j < (St.mk [sampleBook] 2).books.length,
        ∃ hj₂ : j < st₂.books.length,
        (St.mk [sampleBook] 2).books.get ⟨j, hj⟩ = sampleBook ∧ sampleBook.id = 1 ∧
        st₂.books.get ⟨j, hj₂⟩ = applyUpdate (some "x") none sampleBook ∧
        (applyUpdate (some "x") none sampleBook).id = sampleBook.id ∧
        (applyUpdate (some "x") none sampleBook).created_at = sampleBook.created_at ∧
        ((some "x" : Option String) = none →
          (applyUpdate (some "x") none sampleBook).title = sampleBook.title) ∧
        ((none : Option Int) = none →
          (applyUpdate (some "x") none sampleBook).pages = sampleBook.pages) ∧
        (∀ t, (some "x" : Option String) = some t →
          (applyUpdate (some "x") none sampleBook).title = t) ∧
        (∀ p, (none : Option Int) = some p →
          (applyUpdate (some "x") none sampleBook).pages = p) ∧
        ∀ i, ∀ hi : i < (St.mk [sampleBook] 2).books.length,
          ∀ hi₂ : i < st₂.books.length,
          i ≠ j → st₂.books.get ⟨i, hi₂⟩ = (St.mk [sampleBook] 2).books.get ⟨i, hi⟩) :=
  ⟨rfl, C4_update_frame (St.mk [sampleBook] 2) 0 1 (some "x") none sampleBook rfl⟩

/-- Claim C5: POST /books persists one new row with the server-assigned fresh
identifier and created_at = today, returns the 200 success envelope, and a
subsequent GET /books/id on the assigned id returns that title and pages
(provided the fresh identifier is not already in the table, which the
server-assigned monotonic identifier guarantees). -/
theorem C5_create_then_get (st : St) (today : Nat) (title : String) (pages : Int)
    (hfresh : ∀ b ∈ st.books, b.id ≠ st.nextId) :
    ∃ st₂ : St,
      handleRequest st today (Request.create title pages) = (st₂, successResponse) ∧
      successResponse =
        JSONResponse.mk 200 (Json.obj [("status_code", Json.int 200),
          ("message", Json.str "success")]) ∧
      st₂.books = st.books ++ [Book.mk st.nextId title pages today] ∧
      st₂.nextId = st.nextId + 1 ∧
      handleRequest st₂ today (Request.find st.nextId) =
        (st₂, bookResultResponse (some (Book.mk st.nextId title pages today))) := by
  refine ⟨_, rfl, rfl, rfl, rfl, ?_⟩
  have hq : queryFirst (st.books ++ [Book.mk st.nextId title pages today]) st.nextId
      = some (Book.mk st.nextId title pages today) := by
    unfold queryFirst
    rw [find?_append_of_forall_false]
    · simp
    · intro b hbm
      simp [hfresh b hbm]
  simp [handleRequest, routeRequest, find_book, hq]

/-- Witness for C5 at the empty table, title Dune and pages 412. -/
theorem C5_witness :
    (∀ b ∈ (St.mk [] 1).books, b.id ≠ (St.mk [] 1).nextId) ∧
    (∃ st₂ : St,
      handleRequest (St.mk [] 1) 7 (Request.create "Dune" 412) =
        (st₂, successResponse) ∧
      successResponse =
        JSONResponse.mk 200 (Json.obj [("status_code", Json.int 200),
          ("message", Json.str "success")]) ∧
      st₂.books = (St.mk [] 1).books ++ [Book.mk (St.mk [] 1).nextId "Dune" 412 7] ∧
      st₂.nextId = (St.mk [] 1).nextId + 1 ∧
      handleRequest st₂ 7 (Request.find (St.mk [] 1).nextId) =
        (st₂, bookResultResponse (some (Book.mk (St.mk [] 1).nextId "Dune" 412 7)))) :=
  ⟨fun b hbm => absurd hbm (List.not_mem_nil b),
   C5_create_then_get (St.mk [] 1) 7 "Dune" 412
     (fun b hbm => absurd hbm (List.not_mem_nil b))⟩

/-- Claim C6: for every id whose record exists (in a table whose ids are
pairwise distinct, the primary-key invariant), DELETE /books succeeds, and a
subsequent GET /books/id on the same id returns the success envelope with
result book = null. -/
theorem C6_delete_then_get (st : St) (today : Nat) (id : Int) (b : Book)
    (hu : st.books.Pairwise (fun a c => a.id ≠ c.id))
    (hb : queryFirst st.books id = some b) :
    ∃ st₂ : St,
      handleRequest st today (Request.delete id) = (st₂, successResponse) ∧
      handleRequest st₂ today (Request.find id) = (st₂, bookResultResponse none) ∧
      encodeOptBook none = Json.null := by
  refine ⟨{ st with books := st.books.eraseP (fun v => v.id == id) }, ?_, ?_, rfl⟩
  · simp [handleRequest, routeRequest, delete_book, hb]
  · have hq : queryFirst (st.books.eraseP (fun v => v.id == id)) id = none :=
      find?_eraseP_of_pairwise st.books id hu
    simp [handleRequest, routeRequest, find_book, hq]

/-- Witness for C6 at a one-row table and id 1. -/
theorem C6_witness :
    (St.mk [sampleBook] 2).books.Pairwise (fun a c => a.id ≠ c.id) ∧
    queryFirst (St.mk [sampleBook] 2).books 1 = some sampleBook ∧
    (∃ st₂ : St,
      handleRequest (St.mk [sampleBook] 2) 0 (Request.delete 1) =
        (st₂, successResponse) ∧
      handleRequest st₂ 0 (Request.find 1) = (st₂, bookResultResponse none) ∧
      encodeOptBook none = Json.null) :=
  ⟨List.pairwise_singleton _ _, rfl,
   C6_delete_then_get (St.mk [sampleBook] 2) 0 1 sampleBook
     (List.pairwise_singleton _ _) rfl⟩

end BooksApi
